import Mathlib

/-!
Verification of the mode-conditioned model assembly, dataset normalization and
startup validation logic of `examples/mnist_rnn_gan.py`.

The script's decision logic is embedded shallowly:

* numpy arrays become `NdArray` (a shape list plus flat rational data; the
  float32 pixel arithmetic is modelled over `ℚ`);
* the Keras/gandlf layer graph is embedded symbolically (`LayerExpr`,
  `RnnLayer`, `KModel`): graph construction in the script is pure assembly of
  layer objects, so each layer call becomes a constructor application;
* `build_generator`, `build_discriminator`, `get_mnist_data` and `train_model`
  are translated statement by statement from the source;
* the `__main__` block's validation-then-load-then-train sequence becomes
  `main_run`, returning `Except MainError MainResult`: a `raise` in the source
  is an `Except.error` here, and a run reaches the dataset load, the network
  builders and training exactly when `main_run` reaches its final branch.
-/

namespace MnistRnnGan

/-- A numpy ndarray, modelled as its shape together with its flat element
data. Element values are rationals (modelling both the uint8 pixel/label
values and the float32 values produced by normalization). -/
structure NdArray where
  shape : List Nat
  data : List ℚ
  deriving DecidableEq

/-- Numpy's `np.where(x >= t, yes, no)`, elementwise over an array. -/
def np_where_ge (x : NdArray) (t yes no : ℚ) : NdArray :=
  { shape := x.shape, data := x.data.map fun p => if t ≤ p then yes else no }

/-- Numpy's `np.expand_dims(x, axis=-1)`: appends a trailing dimension of size 1,
leaving the element data unchanged. -/
def np_expand_dims_last (x : NdArray) : NdArray :=
  { shape := x.shape ++ [1], data := x.data }

/-- Elementwise scalar subtraction, `x - c`. -/
def NdArray.subScalar (x : NdArray) (c : ℚ) : NdArray :=
  { shape := x.shape, data := x.data.map fun p => p - c }

/-- Elementwise scalar division, `x / c`. -/
def NdArray.divScalar (x : NdArray) (c : ℚ) : NdArray :=
  { shape := x.shape, data := x.data.map fun p => p / c }

/-- Python's `str.lower()` on the ASCII strings the script handles:
characterwise ASCII lowercasing. (Lean's own `String.toLower` is defined by
well-founded recursion and does not compute in the kernel, so the same map is
written structurally over the character list.) -/
def pyLower (s : String) : String := String.mk (s.data.map Char.toLower)

/-- The raw result of `mnist.load_data()`: train/test images and labels. -/
structure MnistRaw where
  X_train : NdArray
  y_train : NdArray
  X_test : NdArray
  y_test : NdArray
  deriving DecidableEq

/-- The function `get_mnist_data(binarize)` from the source: binarize with threshold 10 to
{-1, 1}, or normalize affinely by `(p - 127.5) / 127.5`; then append a
trailing size-1 dimension to all four arrays. -/
def get_mnist_data (binarize : Bool) (raw : MnistRaw) :
    (NdArray × NdArray) × (NdArray × NdArray) :=
  let X_train := raw.X_train
  let y_train := raw.y_train
  let X_test := raw.X_test
  let y_test := raw.y_test
  let (X_train, X_test) :=
    if binarize then
      (np_where_ge X_train 10 1 (-1), np_where_ge X_test 10 1 (-1))
    else
      ((X_train.subScalar 127.5).divScalar 127.5,
       (X_test.subScalar 127.5).divScalar 127.5)
  let X_train := np_expand_dims_last X_train
  let X_test := np_expand_dims_last X_test
  let y_train := np_expand_dims_last y_train
  let y_test := np_expand_dims_last y_test
  ((X_train, y_train), (X_test, y_test))

mutual

/-- A recurrent-layer object before application: the bare LSTM, or the LSTM
wrapped by one of the gandlf attention adapters. -/
inductive RnnLayer where
  | lstm (units : Nat) (returnSequences : Bool)
  | recurrentAttention1D (inner : RnnLayer) (attn : LayerExpr)
  | recurrentAttention2D (inner : RnnLayer) (attn : LayerExpr)

/-- A symbolic Keras tensor: an input declaration or the application of a
layer to an upstream tensor. -/
inductive LayerExpr where
  | input (lname : String) (shape : List Nat) (dtype : String)
  | repeatVector (n : Nat) (x : LayerExpr)
  | reshape (shape : List Nat) (lname : Option String) (x : LayerExpr)
  | denseApp (units : Nat) (activation : String) (x : LayerExpr)
  | timeDistributedDenseApp (units : Nat) (activation : String) (x : LayerExpr)
  | embeddingApp (inputDim outputDim : Nat) (init : String) (x : LayerExpr)
  | flattenApp (x : LayerExpr)
  | rnnApp (r : RnnLayer) (x : LayerExpr)

end

/-- A `keras.models.Model`: declared input tensors and the output tensor. -/
structure KModel where
  inputs : List LayerExpr
  output : LayerExpr

/-- The names of a model's declared input layers. -/
def KModel.inputNames (m : KModel) : List String :=
  m.inputs.filterMap fun l =>
    match l with
    | LayerExpr.input n _ _ => some n
    | _ => none

/-- The function `build_generator(latent_size, mode)` from the source. Dispatch is on the
exact strings `'1d'` and `'2d'`; every other mode string takes the
no-attention `else` branch. -/
def build_generator (latent_size : Nat) (mode : String) : KModel :=
  let latent := LayerExpr.input "latent" [latent_size] "float32"
  let rnn_input := LayerExpr.repeatVector 28 latent
  let rnn_1 := RnnLayer.lstm 128 true
  let (rnn_1, inputs) :=
    if mode = "1d" then
      let input_class := LayerExpr.input "image_class_gen" [1] "int32"
      let embedded :=
        LayerExpr.flattenApp (LayerExpr.embeddingApp 10 64 "glorot_normal" input_class)
      (RnnLayer.recurrentAttention1D rnn_1 embedded, [latent, input_class])
    else if mode = "2d" then
      let ref_image := LayerExpr.input "ref_image_gen" [28, 28, 1] "float32"
      let flat := LayerExpr.reshape [28, 28] none ref_image
      (RnnLayer.recurrentAttention2D rnn_1 flat, [latent, ref_image])
    else
      (rnn_1, [latent])
  let gen_image :=
    LayerExpr.reshape [28, 28, 1] (some "gen_image")
      (LayerExpr.timeDistributedDenseApp 28 "tanh" (LayerExpr.rnnApp rnn_1 rnn_input))
  { inputs := inputs, output := gen_image }

/-- The function `build_discriminator(mode)` from the source; same dispatch discipline as
`build_generator`. -/
def build_discriminator (mode : String) : KModel :=
  let image := LayerExpr.input "real_data" [28, 28, 1] "float32"
  let rnn_input := LayerExpr.reshape [28, 28] none image
  let rnn_1 := RnnLayer.lstm 128 false
  let (rnn_1, inputs) :=
    if mode = "1d" then
      let input_class := LayerExpr.input "image_class_dis" [1] "int32"
      let embedded :=
        LayerExpr.flattenApp (LayerExpr.embeddingApp 10 64 "glorot_normal" input_class)
      (RnnLayer.recurrentAttention1D rnn_1 embedded, [image, input_class])
    else if mode = "2d" then
      let ref_image := LayerExpr.input "ref_image_dis" [28, 28, 1] "float32"
      let attn_reshaped := LayerExpr.reshape [28, 28] none ref_image
      (RnnLayer.recurrentAttention2D rnn_1 attn_reshaped, [image, ref_image])
    else
      (rnn_1, [image])
  let pred_fake :=
    LayerExpr.denseApp 1 "sigmoid" (LayerExpr.rnnApp rnn_1 rnn_input)
  { inputs := inputs, output := pred_fake }

/-- The parsed command-line arguments of the script. -/
structure Args where
  nb_epoch : Nat
  nb_batch : Nat
  plot : Int
  binarize : Bool
  nb_latent : Nat
  save_path : String
  gen_mode : String
  dis_mode : String
  latent_type : String
  lr : ℚ
  beta : ℚ

/-- The optimizer configuration `keras.optimizers.Adam(lr=..., beta_1=...)`. -/
structure AdamOpt where
  lr : ℚ
  beta_1 : ℚ

/-- A value of the `inputs` dict in `train_model`: a latent sampling-strategy
tag string, or a concrete data array. -/
inductive InputSource where
  | samplerTag (tag : String)
  | array (a : NdArray)

/-- Everything `train_model` assembles before invoking the external `fit`:
the two networks, the compiled optimizer and loss, the named input and output
dicts, and the epoch/batch configuration. -/
structure TrainedSetup where
  generator : KModel
  discriminator : KModel
  optimizer : AdamOpt
  loss : String
  inputs : List (String × InputSource)
  outputs : List (String × String)
  nb_epoch : Nat
  batch_size : Nat

/-- The function `train_model(args, X_train, y_train)` from the source: lowercases both
modes, builds the two networks, then assembles the `inputs` dict by
conditional insertion keyed on the two modes. -/
def train_model (args : Args) (X_train y_train : NdArray) : TrainedSetup :=
  let adam_optimizer : AdamOpt := { lr := args.lr, beta_1 := args.beta }
  let gen_mode := pyLower args.gen_mode
  let dis_mode := pyLower args.dis_mode
  let generator := build_generator args.nb_latent gen_mode
  let discriminator := build_discriminator dis_mode
  let inputs : List (String × InputSource) :=
    [("latent", InputSource.samplerTag (pyLower args.latent_type)),
     ("real_data", InputSource.array X_train)]
  let inputs :=
    if gen_mode = "1d" then inputs ++ [("image_class_gen", InputSource.array y_train)]
    else if gen_mode = "2d" then inputs ++ [("ref_image_gen", InputSource.array X_train)]
    else inputs
  let inputs :=
    if dis_mode = "1d" then inputs ++ [("image_class_dis", InputSource.array y_train)]
    else if dis_mode = "2d" then inputs ++ [("ref_image_dis", InputSource.array X_train)]
    else inputs
  let outputs := [("gen_real", "1"), ("fake", "0")]
  { generator := generator, discriminator := discriminator,
    optimizer := adam_optimizer, loss := "binary_crossentropy",
    inputs := inputs, outputs := outputs,
    nb_epoch := args.nb_epoch, batch_size := args.nb_batch }

/-- The errors the `__main__` block can raise before training: the three
`ValueError`s (each carrying the value interpolated into its message) and the
`ImportError` for a missing matplotlib. -/
inductive MainError where
  | invalidGenMode (value : String)
  | invalidDisMode (value : String)
  | invalidLatentType (value : String)
  | matplotlibMissing
  deriving DecidableEq

/-- The process environment the script runs in: whether matplotlib is
importable, and the dataset `mnist.load_data()` would return. -/
structure Env where
  matplotlibAvailable : Bool
  raw : MnistRaw

/-- What a successful run of the script produces before plotting/saving. -/
structure MainResult where
  data : (NdArray × NdArray) × (NdArray × NdArray)
  trained : TrainedSetup
  plotted : Bool
  savedTo : String

/-- The `__main__` block after argument parsing: validate `gen_mode`,
`dis_mode`, `latent_type`, check matplotlib when `--plot` is truthy, and only
then load the dataset and train. Each `raise` becomes an `Except.error`, so a
run builds networks and trains exactly when `main_run` returns `Except.ok`. -/
def main_run (args : Args) (env : Env) : Except MainError MainResult :=
  if pyLower args.gen_mode ∉ (["none", "1d", "2d"] : List String) then
    Except.error (MainError.invalidGenMode args.gen_mode)
  else if pyLower args.dis_mode ∉ (["none", "1d", "2d"] : List String) then
    Except.error (MainError.invalidDisMode args.dis_mode)
  else if pyLower args.latent_type ∉ (["normal", "uniform"] : List String) then
    Except.error (MainError.invalidLatentType (pyLower args.latent_type))
  else if args.plot ≠ 0 ∧ env.matplotlibAvailable = false then
    Except.error MainError.matplotlibMissing
  else
    let data := get_mnist_data args.binarize env.raw
    let X_train := data.1.1
    let y_train := data.1.2
    let model := train_model args X_train y_train
    Except.ok { data := data, trained := model,
                plotted := args.plot != 0, savedTo := args.save_path }

/-- The key list of the training `inputs` dict as a function of the two
(lowercased) mode strings alone. -/
def bundleKeys (gen_mode dis_mode : String) : List String :=
  ["latent", "real_data"] ++
    (if gen_mode = "1d" then ["image_class_gen"]
     else if gen_mode = "2d" then ["ref_image_gen"] else []) ++
    (if dis_mode = "1d" then ["image_class_dis"]
     else if dis_mode = "2d" then ["ref_image_dis"] else [])

/-- The keys of the `inputs` dict built by `train_model` are exactly
`bundleKeys` of the two lowercased modes: no other configuration enters. -/
lemma train_model_keys (args : Args) (X_train y_train : NdArray) :
    (train_model args X_train y_train).inputs.map Prod.fst =
      bundleKeys (pyLower args.gen_mode) (pyLower args.dis_mode) := by
  unfold train_model bundleKeys
  by_cases hg1 : pyLower args.gen_mode = "1d" <;>
    by_cases hg2 : pyLower args.gen_mode = "2d" <;>
      by_cases hd1 : pyLower args.dis_mode = "1d" <;>
        by_cases hd2 : pyLower args.dis_mode = "2d" <;>
          simp_all

/-- Claim C2: for every mode in {none, 1d, 2d}, the generator declares
exactly {latent} / {latent, image_class_gen} / {latent, ref_image_gen}, and
the discriminator declares exactly {real_data} / {real_data, image_class_dis}
/ {real_data, ref_image_dis}. -/
theorem claim_C2 (latent_size : Nat) :
    (build_generator latent_size "none").inputNames = ["latent"] ∧
    (build_generator latent_size "1d").inputNames = ["latent", "image_class_gen"] ∧
    (build_generator latent_size "2d").inputNames = ["latent", "ref_image_gen"] ∧
    (build_discriminator "none").inputNames = ["real_data"] ∧
    (build_discriminator "1d").inputNames = ["real_data", "image_class_dis"] ∧
    (build_discriminator "2d").inputNames = ["real_data", "ref_image_dis"] :=
  ⟨rfl, rfl, rfl, rfl, rfl, rfl⟩

/-- Claim C3: the training input bundle always has keys `latent` and
`real_data`; it has `image_class_gen` iff gen_mode is `1d`, `ref_image_gen`
iff gen_mode is `2d`, `image_class_dis` iff dis_mode is `1d`, `ref_image_dis`
iff dis_mode is `2d`; and the key list is `bundleKeys` of the two lowercased
modes alone, independent of all other configuration (the theorem quantifies
over every `args` and every data array). -/
theorem claim_C3 (args : Args) (X_train y_train : NdArray) :
    (train_model args X_train y_train).inputs.map Prod.fst =
      bundleKeys (pyLower args.gen_mode) (pyLower args.dis_mode) ∧
    "latent" ∈ (train_model args X_train y_train).inputs.map Prod.fst ∧
    "real_data" ∈ (train_model args X_train y_train).inputs.map Prod.fst ∧
    ("image_class_gen" ∈ (train_model args X_train y_train).inputs.map Prod.fst ↔
      pyLower args.gen_mode = "1d") ∧
    ("ref_image_gen" ∈ (train_model args X_train y_train).inputs.map Prod.fst ↔
      pyLower args.gen_mode = "2d") ∧
    ("image_class_dis" ∈ (train_model args X_train y_train).inputs.map Prod.fst ↔
      pyLower args.dis_mode = "1d") ∧
    ("ref_image_dis" ∈ (train_model args X_train y_train).inputs.map Prod.fst ↔
      pyLower args.dis_mode = "2d") := by
  have hk := train_model_keys args X_train y_train
  refine ⟨hk, ?_, ?_, ?_, ?_, ?_, ?_⟩ <;> rw [hk] <;> unfold bundleKeys <;>
    by_cases hg1 : pyLower args.gen_mode = "1d" <;>
      by_cases hg2 : pyLower args.gen_mode = "2d" <;>
        by_cases hd1 : pyLower args.dis_mode = "1d" <;>
          by_cases hd2 : pyLower args.dis_mode = "2d" <;>
            simp_all

/-- Claim C6: for both binarize settings and every input dataset, all four
returned arrays carry an appended trailing dimension of size 1. -/
theorem claim_C6 (binarize : Bool) (raw : MnistRaw) :
    ((get_mnist_data binarize raw).1.1).shape = raw.X_train.shape ++ [1] ∧
    ((get_mnist_data binarize raw).1.2).shape = raw.y_train.shape ++ [1] ∧
    ((get_mnist_data binarize raw).2.1).shape = raw.X_test.shape ++ [1] ∧
    ((get_mnist_data binarize raw).2.2).shape = raw.y_test.shape ++ [1] := by
  cases binarize <;>
    simp [get_mnist_data, np_expand_dims_last, np_where_ge,
      NdArray.subScalar, NdArray.divScalar]

/-- Claim C9: the binarization threshold is 10: every output pixel is the
image of its input pixel under `p ↦ if 10 ≤ p then 1 else -1`, and that map
sends `p` to 1 exactly when `10 ≤ p` and to -1 exactly when `p < 10`. -/
theorem claim_C9 (raw : MnistRaw) :
    ((get_mnist_data true raw).1.1).data =
      raw.X_train.data.map (fun p => if 10 ≤ p then (1 : ℚ) else -1) ∧
    ((get_mnist_data true raw).2.1).data =
      raw.X_test.data.map (fun p => if 10 ≤ p then (1 : ℚ) else -1) ∧
    (∀ p : ℚ, ((if 10 ≤ p then (1 : ℚ) else -1) = 1 ↔ 10 ≤ p) ∧
      ((if 10 ≤ p then (1 : ℚ) else -1) = -1 ↔ p < 10)) := by
  refine ⟨rfl, rfl, fun p => ?_⟩
  by_cases h : (10 : ℚ) ≤ p
  · have h2 : ¬p < 10 := not_lt.mpr h
    norm_num [h, h2]
  · have h2 : p < 10 := not_le.mp h
    norm_num [h, h2]

/-- Claim C10: called directly with any mode string other than exactly `1d`
or `2d` (including mixed-case or invalid strings), the builders never raise
(they are total by construction) and take the no-attention branch: the generator declares exactly
{latent} and the discriminator exactly {real_data}; no error is possible. -/
theorem claim_C10 (latent_size : Nat) (mode : String)
    (h1 : mode ≠ "1d") (h2 : mode ≠ "2d") :
    (build_generator latent_size mode).inputNames = ["latent"] ∧
    (build_discriminator mode).inputNames = ["real_data"] := by
  constructor <;>
    simp [build_generator, build_discriminator, KModel.inputNames, h1, h2]

/-- Witness for C10 at the mixed-case mode string `1D`. -/
theorem claim_C10_witness :
    (build_generator 100 "1D").inputNames = ["latent"] ∧
    (build_discriminator "1D").inputNames = ["real_data"] :=
  claim_C10 100 "1D" (by decide) (by decide)

/-- Claim C4: with binarize=True, every pixel of both returned image arrays
is exactly 1 or exactly -1, for every input dataset. -/
theorem claim_C4 (raw : MnistRaw) :
    (∀ q ∈ ((get_mnist_data true raw).1.1).data, q = 1 ∨ q = -1) ∧
    (∀ q ∈ ((get_mnist_data true raw).2.1).data, q = 1 ∨ q = -1) := by
  constructor <;>
  · intro q hq
    simp [get_mnist_data, np_where_ge, np_expand_dims_last] at hq
    obtain ⟨p, _, hqe⟩ := hq
    by_cases h : (10 : ℚ) ≤ p
    · left
      simp [h] at hqe
      exact hqe.symm
    · right
      simp [h] at hqe
      exact hqe.symm

/-- A small concrete dataset used to instantiate the dataset-adapter
theorems: pixels on both sides of both the 10 and 127.5 thresholds. -/
def rawSmall : MnistRaw :=
  { X_train := { shape := [2, 2], data := [0, 9, 10, 255] },
    y_train := { shape := [2], data := [7, 3] },
    X_test := { shape := [1, 1], data := [5] },
    y_test := { shape := [1], data := [3] } }

/-- Witness for C4 on a concrete dataset: the pixel 255 of `rawSmall` comes
out as the value 1, which is 1 or -1. -/
theorem claim_C4_witness : (1 : ℚ) = 1 ∨ (1 : ℚ) = -1 :=
  (claim_C4 rawSmall).1 1 (by
    simp [rawSmall, get_mnist_data, np_where_ge, np_expand_dims_last])

/-- Claim C5: with binarize=False and all input pixels in [0, 255], the
output image data is the pixelwise image of the single affine transform
`p ↦ (p - 127.5) / 127.5`, every output pixel lies in [-1, 1], and the
transform sends 0 to -1 and 255 to 1. -/
theorem claim_C5 (raw : MnistRaw)
    (h : ∀ p ∈ raw.X_train.data, 0 ≤ p ∧ p ≤ 255) :
    ((get_mnist_data false raw).1.1).data =
      raw.X_train.data.map (fun p => (p - 127.5) / 127.5) ∧
    (∀ q ∈ ((get_mnist_data false raw).1.1).data, -1 ≤ q ∧ q ≤ 1) ∧
    ((0 : ℚ) - 127.5) / 127.5 = -1 ∧ ((255 : ℚ) - 127.5) / 127.5 = 1 := by
  refine ⟨?_, ?_, by norm_num, by norm_num⟩
  · simp [get_mnist_data, NdArray.subScalar, NdArray.divScalar,
      np_expand_dims_last, List.map_map, Function.comp]
  · intro q hq
    simp [get_mnist_data, NdArray.subScalar, NdArray.divScalar,
      np_expand_dims_last, Function.comp] at hq
    obtain ⟨p, hp, hqe⟩ := hq
    obtain ⟨hp0, hp255⟩ := h p hp
    subst hqe
    constructor
    · rw [le_div_iff₀ (by norm_num : (0 : ℚ) < 127.5)]
      linarith
    · rw [div_le_iff₀ (by norm_num : (0 : ℚ) < 127.5)]
      linarith

/-- Witness for C5 on the concrete dataset `rawSmall`, whose pixels all lie
in [0, 255]. -/
theorem claim_C5_witness :
    ((get_mnist_data false rawSmall).1.1).data =
      rawSmall.X_train.data.map (fun p => (p - 127.5) / 127.5) :=
  (claim_C5 rawSmall (by
    intro p hp
    simp [rawSmall] at hp
    rcases hp with rfl | rfl | rfl | rfl <;> norm_num)).1

/-- The script's default argument values, used to instantiate the startup
validation theorems. -/
def argsDefault : Args :=
  { nb_epoch := 10, nb_batch := 32, plot := 0, binarize := false,
    nb_latent := 100, save_path := "/tmp/mnist_rnn_gan.keras_model",
    gen_mode := "none", dis_mode := "none", latent_type := "uniform",
    lr := 1/1000, beta := 1/2 }

/-- An environment with matplotlib importable. -/
def envPlain : Env := { matplotlibAvailable := true, raw := rawSmall }

/-- An environment with matplotlib not importable. -/
def envNoMpl : Env := { matplotlibAvailable := false, raw := rawSmall }

/-- Claim C1: whenever either mode string is outside {none, 1d, 2d}
case-insensitively, the run fails with the ValueError naming the offending
mode value, before the dataset is loaded or any network is built (an
`Except.error` result means `main_run` never reached its final branch, which
is the only place the builders and `get_mnist_data` are invoked). -/
theorem claim_C1 (args : Args) (env : Env)
    (h : pyLower args.gen_mode ∉ (["none", "1d", "2d"] : List String) ∨
      pyLower args.dis_mode ∉ (["none", "1d", "2d"] : List String)) :
    main_run args env = Except.error (MainError.invalidGenMode args.gen_mode) ∨
    main_run args env = Except.error (MainError.invalidDisMode args.dis_mode) := by
  by_cases hg : pyLower args.gen_mode ∈ (["none", "1d", "2d"] : List String)
  · rcases h with h | h
    · exact absurd hg h
    · right
      simp [main_run, hg, h]
  · left
    simp [main_run, hg]

/-- Witness for C1: gen_mode `3d` is rejected with an error naming `3d`. -/
theorem claim_C1_witness :
    main_run { argsDefault with gen_mode := "3d" } envPlain =
      Except.error (MainError.invalidGenMode "3d") ∨
    main_run { argsDefault with gen_mode := "3d" } envPlain =
      Except.error (MainError.invalidDisMode "none") :=
  claim_C1 { argsDefault with gen_mode := "3d" } envPlain (Or.inl (by decide))

/-- Claim C7: whenever latent_type is outside {normal, uniform}
case-insensitively, the run never reaches the dataset load / model
construction / training branch, and — when the two modes are valid, so that
the earlier checks pass — the error is the ValueError naming the (lowercased)
offending latent_type value. -/
theorem claim_C7 (args : Args) (env : Env)
    (hl : pyLower args.latent_type ∉ (["normal", "uniform"] : List String)) :
    (∀ r, main_run args env ≠ Except.ok r) ∧
    (pyLower args.gen_mode ∈ (["none", "1d", "2d"] : List String) →
      pyLower args.dis_mode ∈ (["none", "1d", "2d"] : List String) →
      main_run args env =
        Except.error (MainError.invalidLatentType (pyLower args.latent_type))) := by
  constructor
  · intro r hok
    by_cases hg : pyLower args.gen_mode ∈ (["none", "1d", "2d"] : List String)
    · by_cases hd : pyLower args.dis_mode ∈ (["none", "1d", "2d"] : List String)
      · simp [main_run, hg, hd, hl] at hok
      · simp [main_run, hg, hd] at hok
    · simp [main_run, hg] at hok
  · intro hg hd
    simp [main_run, hg, hd, hl]

/-- Witness for C7: the typo latent_type `ormal` is rejected with the
ValueError naming `ormal`, before dataset load. -/
theorem claim_C7_witness :
    main_run { argsDefault with latent_type := "ormal" } envPlain =
      Except.error (MainError.invalidLatentType "ormal") :=
  (claim_C7 { argsDefault with latent_type := "ormal" } envPlain (by decide)).2
    (by decide) (by decide)

/-- Claim C8: whenever plotting is requested (plot nonzero) and matplotlib is
unavailable, training is never entered (`main_run` never returns `ok`), and —
when the three enumeration checks pass — the run fails with the ImportError,
raised before the dataset load and training. -/
theorem claim_C8 (args : Args) (env : Env)
    (hp : args.plot ≠ 0) (hm : env.matplotlibAvailable = false) :
    (∀ r, main_run args env ≠ Except.ok r) ∧
    (pyLower args.gen_mode ∈ (["none", "1d", "2d"] : List String) →
      pyLower args.dis_mode ∈ (["none", "1d", "2d"] : List String) →
      pyLower args.latent_type ∈ (["normal", "uniform"] : List String) →
      main_run args env = Except.error MainError.matplotlibMissing) := by
  constructor
  · intro r hok
    by_cases hg : pyLower args.gen_mode ∈ (["none", "1d", "2d"] : List String)
    · by_cases hd : pyLower args.dis_mode ∈ (["none", "1d", "2d"] : List String)
      · by_cases hl : pyLower args.latent_type ∈ (["normal", "uniform"] : List String)
        · simp [main_run, hg, hd, hl, hp, hm] at hok
        · simp [main_run, hg, hd, hl] at hok
      · simp [main_run, hg, hd] at hok
    · simp [main_run, hg] at hok
  · intro hg hd hl
    simp [main_run, hg, hd, hl, hp, hm]

/-- Witness for C8: plot=3 with matplotlib unavailable fails with the
ImportError before training. -/
theorem claim_C8_witness :
    main_run { argsDefault with plot := 3 } envNoMpl =
      Except.error MainError.matplotlibMissing :=
  (claim_C8 { argsDefault with plot := 3 } envNoMpl (by decide) rfl).2
    (by decide) (by decide) (by decide)

end MnistRnnGan
